import Mathlib

/-
Shallow embedding of the async-modbus crate (src/client.rs, src/common_utils.rs,
src/lib.rs, src/server.rs).

Client side (src/client.rs): `handle_timeout_write` and `handle_timeout_read`
wrap each transport call in `tokio::time::timeout` and retry only on deadline
expiry, up to `retry_count` attempts.  The external `client::Context` (the
transport/codec) is modelled as an oracle `Transport` giving, for each attempt
index and each primitive, the outcome of `timeout(duration, future).await`:
deadline expiry, a transport error (the payload opaque, a Nat), or a typed
success value.  The mutable ctx state is rendered by explicit state passing:
the `pos` field of `Client` counts transport calls performed so far, and each
attempt consults the oracle at the next absolute index.  The retry loops
become fuel recursion on the remaining retry count, returning the result
together with the number of transport attempts performed.

Server side (src/common_utils.rs): `InternalService::call` is a pure function
of the request; its only effect is invoking one method of the boxed
`Callback` trait object.  The callback is modelled as a record of pure
functions and the effect is rendered explicitly: `call` returns the response
(or exception) together with the list of callback invocations it performed.
-/

namespace AsyncModbus

/-- Outcome of `timeout(timeout_duration, future).await` for one transport
call: `timeout` is `Err(Elapsed)` (the deadline expired), `err e` is
`Ok(Err(e))` (the transport/protocol call itself failed, payload opaque),
`ok v` is `Ok(Ok(v))` (success with the primitive's native result type). -/
inductive TOutcome (α : Type) where
  | timeout : TOutcome α
  | err (e : Nat) : TOutcome α
  | ok (v : α) : TOutcome α
deriving Repr, DecidableEq

/-- Oracle for the external `client::Context` (tokio-modbus transport/codec).
Each field is one async primitive; the first argument is the absolute index
of the transport call (how many calls this context has served before), so
that outcomes may differ between attempts.  Register values and u16 fields
are modelled as Nat. -/
structure Transport where
  readCoils : Nat → Nat → Nat → TOutcome (List Bool)
  readDiscreteInputs : Nat → Nat → Nat → TOutcome (List Bool)
  readHoldingRegisters : Nat → Nat → Nat → TOutcome (List Nat)
  readInputRegisters : Nat → Nat → Nat → TOutcome (List Nat)
  readWriteMultipleRegisters : Nat → Nat → Nat → Nat → List Nat → TOutcome (List Nat)
  writeSingleCoil : Nat → Nat → Bool → TOutcome Unit
  writeSingleRegister : Nat → Nat → Nat → TOutcome Unit
  writeMultipleCoils : Nat → Nat → List Bool → TOutcome Unit
  writeMultipleRegisters : Nat → Nat → List Nat → TOutcome Unit
  maskedWriteRegister : Nat → Nat → Nat → Nat → TOutcome Unit

/-- The tokio-modbus `Request` enum: the ten recognized operation kinds plus
the `Custom` catch-all (function code plus raw data), which both client
handlers and the server router treat through their wildcard arms. -/
inductive Request where
  | ReadCoils (addr cnt : Nat)
  | ReadDiscreteInputs (addr cnt : Nat)
  | ReadHoldingRegisters (addr cnt : Nat)
  | ReadInputRegisters (addr cnt : Nat)
  | ReadWriteMultipleRegisters (readAddr readCount writeAddr : Nat) (writeData : List Nat)
  | WriteSingleCoil (addr : Nat) (value : Bool)
  | WriteSingleRegister (addr value : Nat)
  | WriteMultipleCoils (addr : Nat) (values : List Bool)
  | WriteMultipleRegisters (addr : Nat) (values : List Nat)
  | MaskWriteRegister (addr andMask orMask : Nat)
  | Custom (functionCode : Nat) (data : List Nat)
deriving Repr, DecidableEq

/-- The `ResultValue` enum of src/client.rs: the two result shapes the read
engine can produce. -/
inductive ResultValue where
  | U16 (v : List Nat)
  | Bool (v : List Bool)
deriving Repr, DecidableEq

/-- The distinct `anyhow` error values produced in src/client.rs:
`transport e` is `bail!(e)` re-raising a transport error, the others are the
four literal error strings. -/
inductive ClientError where
  | transport (e : Nat)
  | timeoutElapsed
  | outOfRange
  | resultNotBool
  | resultNotU16
deriving Repr, DecidableEq

/-- The `match request` block of `handle_timeout_write` (client.rs lines
177-196): selects the transport primitive for a write request; `none` stands
for the wildcard arm (which bails with the out-of-range error). -/
def writeFuture (t : Transport) (i : Nat) : Request → Option (TOutcome Unit)
  | Request.WriteSingleCoil a v => some (t.writeSingleCoil i a v)
  | Request.WriteSingleRegister a v => some (t.writeSingleRegister i a v)
  | Request.WriteMultipleCoils a vs => some (t.writeMultipleCoils i a vs)
  | Request.WriteMultipleRegisters a vs => some (t.writeMultipleRegisters i a vs)
  | Request.MaskWriteRegister a am om => some (t.maskedWriteRegister i a am om)
  | _ => none

/-- The first `match request` block of `handle_timeout_read` (client.rs lines
220-237): the word-shaped read primitives, `none` for every other request. -/
def wordFuture (t : Transport) (i : Nat) : Request → Option (TOutcome (List Nat))
  | Request.ReadHoldingRegisters a c => some (t.readHoldingRegisters i a c)
  | Request.ReadInputRegisters a c => some (t.readInputRegisters i a c)
  | Request.ReadWriteMultipleRegisters ra rc wa wd =>
      some (t.readWriteMultipleRegisters i ra rc wa wd)
  | _ => none

/-- The second `match request` block of `handle_timeout_read` (client.rs lines
254-260): the boolean-shaped read primitives, `none` for every other
request. -/
def boolFuture (t : Transport) (i : Nat) : Request → Option (TOutcome (List Bool))
  | Request.ReadCoils a c => some (t.readCoils i a c)
  | Request.ReadDiscreteInputs a c => some (t.readDiscreteInputs i a c)
  | _ => none

/-- Client::handle_timeout_write (client.rs lines 172-212), as fuel recursion
on the remaining retry count, with `i` the absolute index of the next
transport call.  Returns the result together with the number of transport
attempts performed.  The `while retry_count > 0` loop: zero fuel falls
through to `bail!("Timeout: deadline has elapsed")`; otherwise the request is
matched (wildcard arm bails with the out-of-range error before any transport
call); success returns immediately, a transport error is re-raised
immediately, and deadline expiry decrements the counter and retries. -/
def handle_timeout_write (t : Transport) : Nat → Nat → Request → Except ClientError Unit × Nat
  | 0, _, _ => (Except.error ClientError.timeoutElapsed, 0)
  | r + 1, i, req =>
    match writeFuture t i req with
    | none => (Except.error ClientError.outOfRange, 0)
    | some (TOutcome.ok v) => (Except.ok v, 1)
    | some (TOutcome.err e) => (Except.error (ClientError.transport e), 1)
    | some TOutcome.timeout =>
      let p := handle_timeout_write t r (i + 1) req
      (p.1, p.2 + 1)

/-- Client::handle_timeout_read (client.rs lines 215-278), same rendering as
`handle_timeout_write`.  Each iteration first matches the word-shaped path;
if it matches, a success is wrapped in `ResultValue.U16`, an error is
re-raised, and a timeout retries (the `continue` skips the boolean path).
Only when no word-shaped kind matches is the boolean path matched: a success
is wrapped as `ResultValue.Bool`, an error re-raised, a timeout retries; a
request matching neither path bails with the out-of-range error without any
transport call. -/
def handle_timeout_read (t : Transport) :
    Nat → Nat → Request → Except ClientError ResultValue × Nat
  | 0, _, _ => (Except.error ClientError.timeoutElapsed, 0)
  | r + 1, i, req =>
    match wordFuture t i req with
    | some (TOutcome.ok v) => (Except.ok (ResultValue.U16 v), 1)
    | some (TOutcome.err e) => (Except.error (ClientError.transport e), 1)
    | some TOutcome.timeout =>
      let p := handle_timeout_read t r (i + 1) req
      (p.1, p.2 + 1)
    | none =>
      match boolFuture t i req with
      | some (TOutcome.ok v) => (Except.ok (ResultValue.Bool v), 1)
      | some (TOutcome.err e) => (Except.error (ClientError.transport e), 1)
      | some TOutcome.timeout =>
        let p := handle_timeout_read t r (i + 1) req
        (p.1, p.2 + 1)
      | none => (Except.error ClientError.outOfRange, 0)

/-- result_value_bool (client.rs lines 281-288). -/
def result_value_bool : ResultValue → Except ClientError (List Bool)
  | ResultValue.Bool v => Except.ok v
  | _ => Except.error ClientError.resultNotBool

/-- result_value_u16 (client.rs lines 290-297). -/
def result_value_u16 : ResultValue → Except ClientError (List Nat)
  | ResultValue.U16 v => Except.ok v
  | _ => Except.error ClientError.resultNotU16

/-- The Client struct (client.rs lines 21-25).  `ctx` is the transport
oracle; `pos` is the explicit rendering of the ctx's evolving I/O state: the
number of transport calls this context has served so far. -/
structure Client where
  ctx : Transport
  pos : Nat
  timeout_millis : Nat
  retry_count : Nat

/-- Client::new_tcp (client.rs lines 42-52): the socket address and slave id
are consumed by the external `tcp::connect_slave`, whose resulting context is
the `ctx` argument; the fields `timeout_millis` and `retry_count` are set to
the literals 500 and 5. -/
def Client.new_tcp (ctx : Transport) : Client :=
  { ctx := ctx, pos := 0, timeout_millis := 500, retry_count := 5 }

/-- Client::new_rtu (client.rs lines 70-80): the serial transport and slave
id are consumed by the external `rtu::attach_slave`, whose resulting context
is the `ctx` argument; `timeout_millis` and `retry_count` are again the
literals 500 and 5. -/
def Client.new_rtu (ctx : Transport) : Client :=
  { ctx := ctx, pos := 0, timeout_millis := 500, retry_count := 5 }

/-- Writer::write_single_coil for Client (client.rs lines 85-89). -/
def Client.write_single_coil (cl : Client) (address : Nat) (value : Bool) :
    Except ClientError Unit × Client :=
  let p := handle_timeout_write cl.ctx cl.retry_count cl.pos
    (Request.WriteSingleCoil address value)
  (p.1, { cl with pos := cl.pos + p.2 })

/-- Writer::write_single_register for Client (client.rs lines 91-95). -/
def Client.write_single_register (cl : Client) (address value : Nat) :
    Except ClientError Unit × Client :=
  let p := handle_timeout_write cl.ctx cl.retry_count cl.pos
    (Request.WriteSingleRegister address value)
  (p.1, { cl with pos := cl.pos + p.2 })

/-- Writer::write_multiple_coils for Client (client.rs lines 97-101). -/
def Client.write_multiple_coils (cl : Client) (address : Nat) (value : List Bool) :
    Except ClientError Unit × Client :=
  let p := handle_timeout_write cl.ctx cl.retry_count cl.pos
    (Request.WriteMultipleCoils address value)
  (p.1, { cl with pos := cl.pos + p.2 })

/-- Writer::write_multiple_registers for Client (client.rs lines 103-107). -/
def Client.write_multiple_registers (cl : Client) (address : Nat) (value : List Nat) :
    Except ClientError Unit × Client :=
  let p := handle_timeout_write cl.ctx cl.retry_count cl.pos
    (Request.WriteMultipleRegisters address value)
  (p.1, { cl with pos := cl.pos + p.2 })

/-- Writer::masked_write_register for Client (client.rs lines 109-118). -/
def Client.masked_write_register (cl : Client) (address and_mask or_mask : Nat) :
    Except ClientError Unit × Client :=
  let p := handle_timeout_write cl.ctx cl.retry_count cl.pos
    (Request.MaskWriteRegister address and_mask or_mask)
  (p.1, { cl with pos := cl.pos + p.2 })

/-- Reader::read_coils for Client (client.rs lines 123-128). -/
def Client.read_coils (cl : Client) (address count : Nat) :
    Except ClientError (List Bool) × Client :=
  let p := handle_timeout_read cl.ctx cl.retry_count cl.pos
    (Request.ReadCoils address count)
  (p.1.bind result_value_bool, { cl with pos := cl.pos + p.2 })

/-- Reader::read_discrete_inputs for Client (client.rs lines 130-135). -/
def Client.read_discrete_inputs (cl : Client) (address count : Nat) :
    Except ClientError (List Bool) × Client :=
  let p := handle_timeout_read cl.ctx cl.retry_count cl.pos
    (Request.ReadDiscreteInputs address count)
  (p.1.bind result_value_bool, { cl with pos := cl.pos + p.2 })

/-- Reader::read_holding_registers for Client (client.rs lines 137-142). -/
def Client.read_holding_registers (cl : Client) (address count : Nat) :
    Except ClientError (List Nat) × Client :=
  let p := handle_timeout_read cl.ctx cl.retry_count cl.pos
    (Request.ReadHoldingRegisters address count)
  (p.1.bind result_value_u16, { cl with pos := cl.pos + p.2 })

/-- Reader::read_input_registers for Client (client.rs lines 144-149). -/
def Client.read_input_registers (cl : Client) (address count : Nat) :
    Except ClientError (List Nat) × Client :=
  let p := handle_timeout_read cl.ctx cl.retry_count cl.pos
    (Request.ReadInputRegisters address count)
  (p.1.bind result_value_u16, { cl with pos := cl.pos + p.2 })

/-- Reader::read_write_multiple_registers for Client (client.rs lines
151-167). -/
def Client.read_write_multiple_registers (cl : Client)
    (read_addr read_count write_addr : Nat) (write_data : List Nat) :
    Except ClientError (List Nat) × Client :=
  let p := handle_timeout_read cl.ctx cl.retry_count cl.pos
    (Request.ReadWriteMultipleRegisters read_addr read_count write_addr write_data)
  (p.1.bind result_value_u16, { cl with pos := cl.pos + p.2 })

/-- The tokio-modbus `Exception` protocol error codes used by the server
side. -/
inductive Exception where
  | IllegalFunction
  | IllegalDataAddress
  | IllegalDataValue
  | ServerDeviceFailure
  | Acknowledge
  | ServerDeviceBusy
  | MemoryParityError
  | GatewayPathUnavailable
  | GatewayTargetDevice
deriving Repr, DecidableEq

/-- The tokio-modbus `Response` enum, restricted to the variants
`InternalService::call` constructs.  Count fields are u16 modelled as Nat. -/
inductive Response where
  | ReadCoils (v : List Bool)
  | ReadDiscreteInputs (v : List Bool)
  | WriteSingleCoil (addr : Nat) (value : Bool)
  | WriteMultipleCoils (addr cnt : Nat)
  | ReadHoldingRegisters (v : List Nat)
  | ReadInputRegisters (v : List Nat)
  | WriteSingleRegister (addr value : Nat)
  | WriteMultipleRegisters (addr cnt : Nat)
  | MaskWriteRegister (addr andMask orMask : Nat)
  | ReadWriteMultipleRegisters (v : List Nat)
deriving Repr, DecidableEq

/-- The `Callback` trait of src/lib.rs (the pluggable device model): ten
synchronous methods, each returning success with data or an `Exception`. -/
structure Callback where
  read_coils : Nat → Nat → Except Exception (List Bool)
  read_discrete_inputs : Nat → Nat → Except Exception (List Bool)
  write_coil : Nat → Bool → Except Exception Bool
  write_coils : Nat → List Bool → Except Exception Nat
  read_holding_registers : Nat → Nat → Except Exception (List Nat)
  read_input_registers : Nat → Nat → Except Exception (List Nat)
  write_register : Nat → Nat → Except Exception Nat
  write_registers : Nat → List Nat → Except Exception Nat
  masked_write_register : Nat → Nat → Nat → Except Exception Unit
  read_write_multiple_registers : Nat → Nat → Nat → List Nat → Except Exception (List Nat)

/-- One invocation of a `Callback` method, recording which method was called
and with which arguments; `InternalService.call` returns the list of
invocations it performed, rendering the trait-object call as an explicit
effect. -/
inductive CallbackCall where
  | read_coils (addr cnt : Nat)
  | read_discrete_inputs (addr cnt : Nat)
  | write_coil (addr : Nat) (value : Bool)
  | write_coils (addr : Nat) (values : List Bool)
  | read_holding_registers (addr cnt : Nat)
  | read_input_registers (addr cnt : Nat)
  | write_register (addr value : Nat)
  | write_registers (addr : Nat) (values : List Nat)
  | masked_write_register (addr andMask orMask : Nat)
  | read_write_multiple_registers (readAddr readCount writeAddr : Nat) (writeData : List Nat)
deriving Repr, DecidableEq

/-- The tokio-modbus `SlaveRequest`: the declared device identifier (u8,
modelled as Nat) together with the request body. -/
structure SlaveRequest where
  slave : Nat
  request : Request
deriving Repr, DecidableEq

/-- The InternalService struct of src/common_utils.rs: the boxed device-model
callback and the configured slave address (u8 as Nat). -/
structure InternalService where
  call_back : Callback
  slave : Nat

/-- Service::call for InternalService (common_utils.rs lines 19-85).  If the
request's slave differs from the configured one, answer
`Exception::IllegalDataAddress` (no callback invoked).  Otherwise dispatch on
the request kind: each arm invokes the matching callback method once with the
request's own fields and maps a success into the matching response variant —
for `WriteMultipleCoils` the count is the length the callback returned, while
for `WriteMultipleRegisters` the callback's return is discarded and the count
is `value.len() as u16` (the request slice's length, truncated to u16).  The
wildcard arm answers `Exception::IllegalFunction`.  The second component is
the list of callback invocations performed. -/
def InternalService.call (s : InternalService) (req : SlaveRequest) :
    Except Exception Response × List CallbackCall :=
  if req.slave ≠ s.slave then
    (Except.error Exception.IllegalDataAddress, [])
  else
    match req.request with
    | Request.ReadCoils a c =>
        ((s.call_back.read_coils a c).map Response.ReadCoils,
          [CallbackCall.read_coils a c])
    | Request.ReadDiscreteInputs a c =>
        ((s.call_back.read_discrete_inputs a c).map Response.ReadDiscreteInputs,
          [CallbackCall.read_discrete_inputs a c])
    | Request.WriteSingleCoil a v =>
        ((s.call_back.write_coil a v).map (fun _ => Response.WriteSingleCoil a v),
          [CallbackCall.write_coil a v])
    | Request.WriteMultipleCoils a vs =>
        ((s.call_back.write_coils a vs).map (fun len => Response.WriteMultipleCoils a len),
          [CallbackCall.write_coils a vs])
    | Request.ReadHoldingRegisters a c =>
        ((s.call_back.read_holding_registers a c).map Response.ReadHoldingRegisters,
          [CallbackCall.read_holding_registers a c])
    | Request.ReadInputRegisters a c =>
        ((s.call_back.read_input_registers a c).map Response.ReadInputRegisters,
          [CallbackCall.read_input_registers a c])
    | Request.WriteSingleRegister a v =>
        ((s.call_back.write_register a v).map (fun _ => Response.WriteSingleRegister a v),
          [CallbackCall.write_register a v])
    | Request.WriteMultipleRegisters a vs =>
        ((s.call_back.write_registers a vs).map
            (fun _ => Response.WriteMultipleRegisters a (vs.length % 65536)),
          [CallbackCall.write_registers a vs])
    | Request.MaskWriteRegister a am om =>
        ((s.call_back.masked_write_register a am om).map
            (fun _ => Response.MaskWriteRegister a am om),
          [CallbackCall.masked_write_register a am om])
    | Request.ReadWriteMultipleRegisters ra rc wa wd =>
        ((s.call_back.read_write_multiple_registers ra rc wa wd).map
            Response.ReadWriteMultipleRegisters,
          [CallbackCall.read_write_multiple_registers ra rc wa wd])
    | Request.Custom _ _ =>
        (Except.error Exception.IllegalFunction, [])

/-- If the write primitive for `req` times out on every attempt, the write
engine spends all its fuel and reports the deadline-elapsed error. -/
lemma write_all_timeout (t : Transport) (req : Request)
    (h : ∀ j, writeFuture t j req = some TOutcome.timeout) :
    ∀ c i, handle_timeout_write t c i req = (Except.error ClientError.timeoutElapsed, c) := by
  intro c
  induction c with
  | zero => intro i; rfl
  | succ r ih =>
    intro i
    simp only [handle_timeout_write, h i, ih (i + 1)]

/-- If the word-path primitive for `req` times out on every attempt, the read
engine spends all its fuel and reports the deadline-elapsed error. -/
lemma read_all_timeout_word (t : Transport) (req : Request)
    (h : ∀ j, wordFuture t j req = some TOutcome.timeout) :
    ∀ c i, handle_timeout_read t c i req = (Except.error ClientError.timeoutElapsed, c) := by
  intro c
  induction c with
  | zero => intro i; rfl
  | succ r ih =>
    intro i
    simp only [handle_timeout_read, h i, ih (i + 1)]

/-- If `req` matches no word-path primitive and its boolean-path primitive
times out on every attempt, the read engine spends all its fuel and reports
the deadline-elapsed error. -/
lemma read_all_timeout_bool (t : Transport) (req : Request)
    (hw : ∀ j, wordFuture t j req = none)
    (h : ∀ j, boolFuture t j req = some TOutcome.timeout) :
    ∀ c i, handle_timeout_read t c i req = (Except.error ClientError.timeoutElapsed, c) := by
  intro c
  induction c with
  | zero => intro i; rfl
  | succ r ih =>
    intro i
    simp only [handle_timeout_read, hw i, h i, ih (i + 1)]

/-- If the first `m` attempts of the write primitive time out and attempt
`m + 1` fails with a transport error, the write engine returns that error
having performed exactly `m + 1` attempts. -/
lemma write_err_at (t : Transport) (req : Request) (e : Nat) :
    ∀ m c i, m < c →
      (∀ j, j < m → writeFuture t (i + j) req = some TOutcome.timeout) →
      writeFuture t (i + m) req = some (TOutcome.err e) →
      handle_timeout_write t c i req = (Except.error (ClientError.transport e), m + 1) := by
  intro m
  induction m with
  | zero =>
    intro c i hc _ herr
    obtain ⟨c', rfl⟩ : ∃ c', c = c' + 1 := ⟨c - 1, by omega⟩
    have herr' : writeFuture t i req = some (TOutcome.err e) := by simpa using herr
    simp only [handle_timeout_write, herr']
  | succ m ih =>
    intro c i hc htm herr
    obtain ⟨c', rfl⟩ : ∃ c', c = c' + 1 := ⟨c - 1, by omega⟩
    have h0 : writeFuture t i req = some TOutcome.timeout := by
      simpa using htm 0 (Nat.succ_pos m)
    have hrec : handle_timeout_write t c' (i + 1) req =
        (Except.error (ClientError.transport e), m + 1) := by
      apply ih c' (i + 1) (by omega)
      · intro j hj
        have hshift : i + 1 + j = i + (j + 1) := by omega
        rw [hshift]
        exact htm (j + 1) (by omega)
      · have hshift : i + 1 + m = i + (m + 1) := by omega
        rw [hshift]
        exact herr
    simp only [handle_timeout_write, h0, hrec]

/-- If the first `m` attempts of the word-path primitive time out and attempt
`m + 1` fails with a transport error, the read engine returns that error
having performed exactly `m + 1` attempts. -/
lemma read_err_at_word (t : Transport) (req : Request) (e : Nat) :
    ∀ m c i, m < c →
      (∀ j, j < m → wordFuture t (i + j) req = some TOutcome.timeout) →
      wordFuture t (i + m) req = some (TOutcome.err e) →
      handle_timeout_read t c i req = (Except.error (ClientError.transport e), m + 1) := by
  intro m
  induction m with
  | zero =>
    intro c i hc _ herr
    obtain ⟨c', rfl⟩ : ∃ c', c = c' + 1 := ⟨c - 1, by omega⟩
    have herr' : wordFuture t i req = some (TOutcome.err e) := by simpa using herr
    simp only [handle_timeout_read, herr']
  | succ m ih =>
    intro c i hc htm herr
    obtain ⟨c', rfl⟩ : ∃ c', c = c' + 1 := ⟨c - 1, by omega⟩
    have h0 : wordFuture t i req = some TOutcome.timeout := by
      simpa using htm 0 (Nat.succ_pos m)
    have hrec : handle_timeout_read t c' (i + 1) req =
        (Except.error (ClientError.transport e), m + 1) := by
      apply ih c' (i + 1) (by omega)
      · intro j hj
        have hshift : i + 1 + j = i + (j + 1) := by omega
        rw [hshift]
        exact htm (j + 1) (by omega)
      · have hshift : i + 1 + m = i + (m + 1) := by omega
        rw [hshift]
        exact herr
    simp only [handle_timeout_read, h0, hrec]

/-- If `req` matches no word-path primitive, the first `m` attempts of its
boolean-path primitive time out, and attempt `m + 1` fails with a transport
error, the read engine returns that error having performed exactly `m + 1`
attempts. -/
lemma read_err_at_bool (t : Transport) (req : Request) (e : Nat)
    (hw : ∀ j, wordFuture t j req = none) :
    ∀ m c i, m < c →
      (∀ j, j < m → boolFuture t (i + j) req = some TOutcome.timeout) →
      boolFuture t (i + m) req = some (TOutcome.err e) →
      handle_timeout_read t c i req = (Except.error (ClientError.transport e), m + 1) := by
  intro m
  induction m with
  | zero =>
    intro c i hc _ herr
    obtain ⟨c', rfl⟩ : ∃ c', c = c' + 1 := ⟨c - 1, by omega⟩
    have herr' : boolFuture t i req = some (TOutcome.err e) := by simpa using herr
    simp only [handle_timeout_read, hw i, herr']
  | succ m ih =>
    intro c i hc htm herr
    obtain ⟨c', rfl⟩ : ∃ c', c = c' + 1 := ⟨c - 1, by omega⟩
    have h0 : boolFuture t i req = some TOutcome.timeout := by
      simpa using htm 0 (Nat.succ_pos m)
    have hrec : handle_timeout_read t c' (i + 1) req =
        (Except.error (ClientError.transport e), m + 1) := by
      apply ih c' (i + 1) (by omega)
      · intro j hj
        have hshift : i + 1 + j = i + (j + 1) := by omega
        rw [hshift]
        exact htm (j + 1) (by omega)
      · have hshift : i + 1 + m = i + (m + 1) := by omega
        rw [hshift]
        exact herr
    simp only [handle_timeout_read, hw i, h0, hrec]

/-- A concrete transport oracle whose every call hits the deadline. -/
def timeoutTransport : Transport where
  readCoils := fun _ _ _ => TOutcome.timeout
  readDiscreteInputs := fun _ _ _ => TOutcome.timeout
  readHoldingRegisters := fun _ _ _ => TOutcome.timeout
  readInputRegisters := fun _ _ _ => TOutcome.timeout
  readWriteMultipleRegisters := fun _ _ _ _ _ => TOutcome.timeout
  writeSingleCoil := fun _ _ _ => TOutcome.timeout
  writeSingleRegister := fun _ _ _ => TOutcome.timeout
  writeMultipleCoils := fun _ _ _ => TOutcome.timeout
  writeMultipleRegisters := fun _ _ _ => TOutcome.timeout
  maskedWriteRegister := fun _ _ _ _ => TOutcome.timeout

/-- A concrete transport oracle that times out on the first two calls and
then fails every call with the opaque transport error 7. -/
def errAfterTwoTransport : Transport where
  readCoils := fun i _ _ => if i < 2 then TOutcome.timeout else TOutcome.err 7
  readDiscreteInputs := fun i _ _ => if i < 2 then TOutcome.timeout else TOutcome.err 7
  readHoldingRegisters := fun i _ _ => if i < 2 then TOutcome.timeout else TOutcome.err 7
  readInputRegisters := fun i _ _ => if i < 2 then TOutcome.timeout else TOutcome.err 7
  readWriteMultipleRegisters := fun i _ _ _ _ => if i < 2 then TOutcome.timeout else TOutcome.err 7
  writeSingleCoil := fun i _ _ => if i < 2 then TOutcome.timeout else TOutcome.err 7
  writeSingleRegister := fun i _ _ => if i < 2 then TOutcome.timeout else TOutcome.err 7
  writeMultipleCoils := fun i _ _ => if i < 2 then TOutcome.timeout else TOutcome.err 7
  writeMultipleRegisters := fun i _ _ => if i < 2 then TOutcome.timeout else TOutcome.err 7
  maskedWriteRegister := fun i _ _ _ => if i < 2 then TOutcome.timeout else TOutcome.err 7

/-- C1: for every client read or write operation, if every attempt's
transport call times out, the engine returns the distinct deadline-elapsed
error after exactly `retry_count` (here `c`) attempts, no more and no fewer.
The three conjuncts cover the write engine, the word-shaped read path, and
the boolean-shaped read path. -/
theorem C1_all_timeouts_exhaust_exactly_retry_count
    (t : Transport) (c i : Nat) (req : Request) :
    ((∀ j, writeFuture t j req = some TOutcome.timeout) →
      handle_timeout_write t c i req = (Except.error ClientError.timeoutElapsed, c))
  ∧ ((∀ j, wordFuture t j req = some TOutcome.timeout) →
      handle_timeout_read t c i req = (Except.error ClientError.timeoutElapsed, c))
  ∧ ((∀ j, wordFuture t j req = none) →
      (∀ j, boolFuture t j req = some TOutcome.timeout) →
      handle_timeout_read t c i req = (Except.error ClientError.timeoutElapsed, c)) :=
  ⟨fun h => write_all_timeout t req h c i,
   fun h => read_all_timeout_word t req h c i,
   fun hw h => read_all_timeout_bool t req hw h c i⟩

/-- Witness for C1 at the always-timing-out transport with the default five
retries: a write, a word-shaped read, and a boolean-shaped read all fail with
the deadline-elapsed error after exactly five attempts. -/
theorem C1_witness :
    handle_timeout_write timeoutTransport 5 0 (Request.WriteSingleCoil 3 true) =
      (Except.error ClientError.timeoutElapsed, 5)
  ∧ handle_timeout_read timeoutTransport 5 0 (Request.ReadHoldingRegisters 0 2) =
      (Except.error ClientError.timeoutElapsed, 5)
  ∧ handle_timeout_read timeoutTransport 5 0 (Request.ReadCoils 0 2) =
      (Except.error ClientError.timeoutElapsed, 5) :=
  ⟨(C1_all_timeouts_exhaust_exactly_retry_count timeoutTransport 5 0
      (Request.WriteSingleCoil 3 true)).1 (fun _ => rfl),
   (C1_all_timeouts_exhaust_exactly_retry_count timeoutTransport 5 0
      (Request.ReadHoldingRegisters 0 2)).2.1 (fun _ => rfl),
   (C1_all_timeouts_exhaust_exactly_retry_count timeoutTransport 5 0
      (Request.ReadCoils 0 2)).2.2 (fun _ => rfl) (fun _ => rfl)⟩

/-- C2: a non-timeout transport error on attempt `m + 1` (with `m + 1` at
most the retry budget `c`, preceded only by timeouts) makes the call return
that error immediately, having performed exactly `m + 1` attempts — only
deadline expiry ever triggers a retry.  The three conjuncts cover the write
engine, the word-shaped read path, and the boolean-shaped read path. -/
theorem C2_transport_error_aborts_immediately
    (t : Transport) (c i m e : Nat) (req : Request) (hm : m < c) :
    ((∀ j, j < m → writeFuture t (i + j) req = some TOutcome.timeout) →
      writeFuture t (i + m) req = some (TOutcome.err e) →
      handle_timeout_write t c i req = (Except.error (ClientError.transport e), m + 1))
  ∧ ((∀ j, j < m → wordFuture t (i + j) req = some TOutcome.timeout) →
      wordFuture t (i + m) req = some (TOutcome.err e) →
      handle_timeout_read t c i req = (Except.error (ClientError.transport e), m + 1))
  ∧ ((∀ j, wordFuture t j req = none) →
      (∀ j, j < m → boolFuture t (i + j) req = some TOutcome.timeout) →
      boolFuture t (i + m) req = some (TOutcome.err e) →
      handle_timeout_read t c i req = (Except.error (ClientError.transport e), m + 1)) :=
  ⟨fun htm herr => write_err_at t req e m c i hm htm herr,
   fun htm herr => read_err_at_word t req e m c i hm htm herr,
   fun hw htm herr => read_err_at_bool t req e hw m c i hm htm herr⟩

/-- Witness for C2 at the transport that times out twice and then errors:
with five retries, a write, a word-shaped read, and a boolean-shaped read all
surface transport error 7 after exactly three attempts. -/
theorem C2_witness :
    handle_timeout_write errAfterTwoTransport 5 0 (Request.WriteSingleRegister 1 9) =
      (Except.error (ClientError.transport 7), 3)
  ∧ handle_timeout_read errAfterTwoTransport 5 0 (Request.ReadInputRegisters 1 4) =
      (Except.error (ClientError.transport 7), 3)
  ∧ handle_timeout_read errAfterTwoTransport 5 0 (Request.ReadDiscreteInputs 1 4) =
      (Except.error (ClientError.transport 7), 3) :=
  ⟨(C2_transport_error_aborts_immediately errAfterTwoTransport 5 0 2 7
      (Request.WriteSingleRegister 1 9) (by decide)).1 (by decide) (by decide),
   (C2_transport_error_aborts_immediately errAfterTwoTransport 5 0 2 7
      (Request.ReadInputRegisters 1 4) (by decide)).2.1 (by decide) (by decide),
   (C2_transport_error_aborts_immediately errAfterTwoTransport 5 0 2 7
      (Request.ReadDiscreteInputs 1 4) (by decide)).2.2 (fun _ => rfl) (by decide) (by decide)⟩

/-- A concrete transport oracle that succeeds immediately on every call with
fixed result values. -/
def okTransport : Transport where
  readCoils := fun _ _ _ => TOutcome.ok [true, false]
  readDiscreteInputs := fun _ _ _ => TOutcome.ok [false]
  readHoldingRegisters := fun _ _ _ => TOutcome.ok [42, 43]
  readInputRegisters := fun _ _ _ => TOutcome.ok [1]
  readWriteMultipleRegisters := fun _ _ _ _ _ => TOutcome.ok [5, 6]
  writeSingleCoil := fun _ _ _ => TOutcome.ok ()
  writeSingleRegister := fun _ _ _ => TOutcome.ok ()
  writeMultipleCoils := fun _ _ _ => TOutcome.ok ()
  writeMultipleRegisters := fun _ _ _ => TOutcome.ok ()
  maskedWriteRegister := fun _ _ _ _ => TOutcome.ok ()

/-- A client session over the always-succeeding transport, as built by
`Client.new_tcp`. -/
def okClient : Client := Client.new_tcp okTransport

/-- C3: with retry budget remaining, a first-attempt transport success makes
each of the ten public methods return the correctly shaped value (unit for
the five writes, bool sequence for read coils / read discrete inputs, word
sequence for the other reads) and consume exactly one attempt — the session's
call counter advances by one. -/
theorem C3_first_attempt_success_one_attempt (cl : Client) (h : 0 < cl.retry_count) :
    (∀ a v, cl.ctx.writeSingleCoil cl.pos a v = TOutcome.ok () →
      cl.write_single_coil a v = (Except.ok (), { cl with pos := cl.pos + 1 }))
  ∧ (∀ a v, cl.ctx.writeSingleRegister cl.pos a v = TOutcome.ok () →
      cl.write_single_register a v = (Except.ok (), { cl with pos := cl.pos + 1 }))
  ∧ (∀ a vs, cl.ctx.writeMultipleCoils cl.pos a vs = TOutcome.ok () →
      cl.write_multiple_coils a vs = (Except.ok (), { cl with pos := cl.pos + 1 }))
  ∧ (∀ a vs, cl.ctx.writeMultipleRegisters cl.pos a vs = TOutcome.ok () →
      cl.write_multiple_registers a vs = (Except.ok (), { cl with pos := cl.pos + 1 }))
  ∧ (∀ a am om, cl.ctx.maskedWriteRegister cl.pos a am om = TOutcome.ok () →
      cl.masked_write_register a am om = (Except.ok (), { cl with pos := cl.pos + 1 }))
  ∧ (∀ a n v, cl.ctx.readCoils cl.pos a n = TOutcome.ok v →
      cl.read_coils a n = (Except.ok v, { cl with pos := cl.pos + 1 }))
  ∧ (∀ a n v, cl.ctx.readDiscreteInputs cl.pos a n = TOutcome.ok v →
      cl.read_discrete_inputs a n = (Except.ok v, { cl with pos := cl.pos + 1 }))
  ∧ (∀ a n v, cl.ctx.readHoldingRegisters cl.pos a n = TOutcome.ok v →
      cl.read_holding_registers a n = (Except.ok v, { cl with pos := cl.pos + 1 }))
  ∧ (∀ a n v, cl.ctx.readInputRegisters cl.pos a n = TOutcome.ok v →
      cl.read_input_registers a n = (Except.ok v, { cl with pos := cl.pos + 1 }))
  ∧ (∀ ra rc wa wd v, cl.ctx.readWriteMultipleRegisters cl.pos ra rc wa wd = TOutcome.ok v →
      cl.read_write_multiple_registers ra rc wa wd =
        (Except.ok v, { cl with pos := cl.pos + 1 })) := by
  obtain ⟨c', hc⟩ : ∃ c', cl.retry_count = c' + 1 := ⟨cl.retry_count - 1, by omega⟩
  refine ⟨?_, ?_, ?_, ?_, ?_, ?_, ?_, ?_, ?_, ?_⟩
  · intro a v hv
    simp [Client.write_single_coil, hc, handle_timeout_write, writeFuture, hv]
  · intro a v hv
    simp [Client.write_single_register, hc, handle_timeout_write, writeFuture, hv]
  · intro a vs hv
    simp [Client.write_multiple_coils, hc, handle_timeout_write, writeFuture, hv]
  · intro a vs hv
    simp [Client.write_multiple_registers, hc, handle_timeout_write, writeFuture, hv]
  · intro a am om hv
    simp [Client.masked_write_register, hc, handle_timeout_write, writeFuture, hv]
  · intro a n v hv
    simp [Client.read_coils, hc, handle_timeout_read, wordFuture, boolFuture, hv,
      result_value_bool, Except.bind]
  · intro a n v hv
    simp [Client.read_discrete_inputs, hc, handle_timeout_read, wordFuture, boolFuture, hv,
      result_value_bool, Except.bind]
  · intro a n v hv
    simp [Client.read_holding_registers, hc, handle_timeout_read, wordFuture, hv,
      result_value_u16, Except.bind]
  · intro a n v hv
    simp [Client.read_input_registers, hc, handle_timeout_read, wordFuture, hv,
      result_value_u16, Except.bind]
  · intro ra rc wa wd v hv
    simp [Client.read_write_multiple_registers, hc, handle_timeout_read, wordFuture, hv,
      result_value_u16, Except.bind]

/-- Witness for C3 at a freshly constructed session over the
always-succeeding transport: each of the ten public methods returns its
shaped value and advances the call counter by exactly one. -/
theorem C3_witness :
    okClient.write_single_coil 3 true = (Except.ok (), { okClient with pos := okClient.pos + 1 })
  ∧ okClient.write_single_register 3 9 =
      (Except.ok (), { okClient with pos := okClient.pos + 1 })
  ∧ okClient.write_multiple_coils 3 [true] =
      (Except.ok (), { okClient with pos := okClient.pos + 1 })
  ∧ okClient.write_multiple_registers 3 [4, 5] =
      (Except.ok (), { okClient with pos := okClient.pos + 1 })
  ∧ okClient.masked_write_register 3 1 2 =
      (Except.ok (), { okClient with pos := okClient.pos + 1 })
  ∧ okClient.read_coils 0 2 =
      (Except.ok [true, false], { okClient with pos := okClient.pos + 1 })
  ∧ okClient.read_discrete_inputs 0 1 =
      (Except.ok [false], { okClient with pos := okClient.pos + 1 })
  ∧ okClient.read_holding_registers 100 2 =
      (Except.ok [42, 43], { okClient with pos := okClient.pos + 1 })
  ∧ okClient.read_input_registers 0 1 =
      (Except.ok [1], { okClient with pos := okClient.pos + 1 })
  ∧ okClient.read_write_multiple_registers 0 2 4 [9, 8] =
      (Except.ok [5, 6], { okClient with pos := okClient.pos + 1 }) := by
  have h := C3_first_attempt_success_one_attempt okClient (by decide)
  exact ⟨h.1 3 true rfl, h.2.1 3 9 rfl, h.2.2.1 3 [true] rfl, h.2.2.2.1 3 [4, 5] rfl,
    h.2.2.2.2.1 3 1 2 rfl, h.2.2.2.2.2.1 0 2 [true, false] rfl,
    h.2.2.2.2.2.2.1 0 1 [false] rfl, h.2.2.2.2.2.2.2.1 100 2 [42, 43] rfl,
    h.2.2.2.2.2.2.2.2.1 0 1 [1] rfl, h.2.2.2.2.2.2.2.2.2 0 2 4 [9, 8] [5, 6] rfl⟩

/-- A successful read of a request that always matches the word path carries
a word-shaped (`U16`) value. -/
lemma read_ok_shape_word (t : Transport) (req : Request)
    (h : ∀ j, (wordFuture t j req).isSome) :
    ∀ c i v, (handle_timeout_read t c i req).1 = Except.ok v →
      ∃ w, v = ResultValue.U16 w := by
  intro c
  induction c with
  | zero =>
    intro i v hv
    exact absurd hv (by simp [handle_timeout_read])
  | succ r ih =>
    intro i v hv
    cases hw : wordFuture t i req with
    | none => exact absurd (h i) (by simp [hw])
    | some out =>
      cases out with
      | ok w =>
        simp [handle_timeout_read, hw] at hv
        exact ⟨w, hv.symm⟩
      | err e => simp [handle_timeout_read, hw] at hv
      | timeout =>
        simp only [handle_timeout_read, hw] at hv
        exact ih (i + 1) v hv

/-- A successful read of a request that never matches the word path carries a
boolean-shaped (`Bool`) value. -/
lemma read_ok_shape_bool (t : Transport) (req : Request)
    (hw : ∀ j, wordFuture t j req = none) :
    ∀ c i v, (handle_timeout_read t c i req).1 = Except.ok v →
      ∃ w, v = ResultValue.Bool w := by
  intro c
  induction c with
  | zero =>
    intro i v hv
    exact absurd hv (by simp [handle_timeout_read])
  | succ r ih =>
    intro i v hv
    cases hb : boolFuture t i req with
    | none => simp [handle_timeout_read, hw i, hb] at hv
    | some out =>
      cases out with
      | ok w =>
        simp [handle_timeout_read, hw i, hb] at hv
        exact ⟨w, hv.symm⟩
      | err e => simp [handle_timeout_read, hw i, hb] at hv
      | timeout =>
        simp only [handle_timeout_read, hw i, hb] at hv
        exact ih (i + 1) v hv

/-- The read engine itself only ever fails with the deadline-elapsed error,
the out-of-range error, or a re-raised transport error — never with a
shape-mismatch error. -/
lemma read_error_taxonomy (t : Transport) (req : Request) :
    ∀ c i e, (handle_timeout_read t c i req).1 = Except.error e →
      e = ClientError.timeoutElapsed ∨ e = ClientError.outOfRange ∨
        ∃ k, e = ClientError.transport k := by
  intro c
  induction c with
  | zero =>
    intro i e he
    simp [handle_timeout_read] at he
    exact Or.inl he.symm
  | succ r ih =>
    intro i e he
    cases hw : wordFuture t i req with
    | some out =>
      cases out with
      | ok w => simp [handle_timeout_read, hw] at he
      | err k =>
        simp [handle_timeout_read, hw] at he
        exact Or.inr (Or.inr ⟨k, he.symm⟩)
      | timeout =>
        simp only [handle_timeout_read, hw] at he
        exact ih (i + 1) e he
    | none =>
      cases hb : boolFuture t i req with
      | some out =>
        cases out with
        | ok w => simp [handle_timeout_read, hw, hb] at he
        | err k =>
          simp [handle_timeout_read, hw, hb] at he
          exact Or.inr (Or.inr ⟨k, he.symm⟩)
        | timeout =>
          simp only [handle_timeout_read, hw, hb] at he
          exact ih (i + 1) e he
      | none =>
        simp [handle_timeout_read, hw, hb] at he
        exact Or.inr (Or.inl he.symm)

/-- Narrowing a never-word-path read through `result_value_bool` can never
produce the bool shape-mismatch error. -/
lemma bind_result_value_bool_safe (t : Transport) (req : Request)
    (hw : ∀ j, wordFuture t j req = none) (c i : Nat) :
    (handle_timeout_read t c i req).1.bind result_value_bool ≠
      Except.error ClientError.resultNotBool := by
  cases hp : (handle_timeout_read t c i req).1 with
  | error e =>
    rcases read_error_taxonomy t req c i e hp with rfl | rfl | ⟨k, rfl⟩ <;>
      simp [Except.bind]
  | ok v =>
    obtain ⟨w, rfl⟩ := read_ok_shape_bool t req hw c i v hp
    simp [Except.bind, result_value_bool]

/-- Narrowing an always-word-path read through `result_value_u16` can never
produce the u16 shape-mismatch error. -/
lemma bind_result_value_u16_safe (t : Transport) (req : Request)
    (h : ∀ j, (wordFuture t j req).isSome) (c i : Nat) :
    (handle_timeout_read t c i req).1.bind result_value_u16 ≠
      Except.error ClientError.resultNotU16 := by
  cases hp : (handle_timeout_read t c i req).1 with
  | error e =>
    rcases read_error_taxonomy t req c i e hp with rfl | rfl | ⟨k, rfl⟩ <;>
      simp [Except.bind]
  | ok v =>
    obtain ⟨w, rfl⟩ := read_ok_shape_word t req h c i v hp
    simp [Except.bind, result_value_u16]

/-- C6: whenever `handle_timeout_read` returns a successful `ResultValue` for
a public Reader method's request, the value has the shape that method
expects (Bool for read coils / read discrete inputs, U16 for the three
word-shaped reads), so under normal dispatch the shape-mismatch branches of
`result_value_bool` and `result_value_u16` are unreachable: no public Reader
method can return its shape-mismatch error. -/
theorem C6_reader_shape_mismatch_unreachable :
    (∀ t c i a n v, (handle_timeout_read t c i (Request.ReadCoils a n)).1 = Except.ok v →
      ∃ w, v = ResultValue.Bool w)
  ∧ (∀ t c i a n v,
      (handle_timeout_read t c i (Request.ReadDiscreteInputs a n)).1 = Except.ok v →
      ∃ w, v = ResultValue.Bool w)
  ∧ (∀ t c i a n v,
      (handle_timeout_read t c i (Request.ReadHoldingRegisters a n)).1 = Except.ok v →
      ∃ w, v = ResultValue.U16 w)
  ∧ (∀ t c i a n v,
      (handle_timeout_read t c i (Request.ReadInputRegisters a n)).1 = Except.ok v →
      ∃ w, v = ResultValue.U16 w)
  ∧ (∀ t c i ra rc wa wd v,
      (handle_timeout_read t c i
        (Request.ReadWriteMultipleRegisters ra rc wa wd)).1 = Except.ok v →
      ∃ w, v = ResultValue.U16 w)
  ∧ (∀ cl a n, (Client.read_coils cl a n).1 ≠ Except.error ClientError.resultNotBool)
  ∧ (∀ cl a n,
      (Client.read_discrete_inputs cl a n).1 ≠ Except.error ClientError.resultNotBool)
  ∧ (∀ cl a n,
      (Client.read_holding_registers cl a n).1 ≠ Except.error ClientError.resultNotU16)
  ∧ (∀ cl a n,
      (Client.read_input_registers cl a n).1 ≠ Except.error ClientError.resultNotU16)
  ∧ (∀ cl ra rc wa wd,
      (Client.read_write_multiple_registers cl ra rc wa wd).1 ≠
        Except.error ClientError.resultNotU16) := by
  refine ⟨?_, ?_, ?_, ?_, ?_, ?_, ?_, ?_, ?_, ?_⟩
  · intro t c i a n v hv
    exact read_ok_shape_bool t (Request.ReadCoils a n) (fun _ => rfl) c i v hv
  · intro t c i a n v hv
    exact read_ok_shape_bool t (Request.ReadDiscreteInputs a n) (fun _ => rfl) c i v hv
  · intro t c i a n v hv
    exact read_ok_shape_word t (Request.ReadHoldingRegisters a n) (fun _ => rfl) c i v hv
  · intro t c i a n v hv
    exact read_ok_shape_word t (Request.ReadInputRegisters a n) (fun _ => rfl) c i v hv
  · intro t c i ra rc wa wd v hv
    exact read_ok_shape_word t (Request.ReadWriteMultipleRegisters ra rc wa wd)
      (fun _ => rfl) c i v hv
  · intro cl a n
    exact bind_result_value_bool_safe cl.ctx (Request.ReadCoils a n)
      (fun _ => rfl) cl.retry_count cl.pos
  · intro cl a n
    exact bind_result_value_bool_safe cl.ctx (Request.ReadDiscreteInputs a n)
      (fun _ => rfl) cl.retry_count cl.pos
  · intro cl a n
    exact bind_result_value_u16_safe cl.ctx (Request.ReadHoldingRegisters a n)
      (fun _ => rfl) cl.retry_count cl.pos
  · intro cl a n
    exact bind_result_value_u16_safe cl.ctx (Request.ReadInputRegisters a n)
      (fun _ => rfl) cl.retry_count cl.pos
  · intro cl ra rc wa wd
    exact bind_result_value_u16_safe cl.ctx (Request.ReadWriteMultipleRegisters ra rc wa wd)
      (fun _ => rfl) cl.retry_count cl.pos

/-- Witness for C6: at the always-succeeding transport, the shape conjuncts
apply to the concrete successful results of a boolean-shaped and a
word-shaped read, and the public-method conjunct applies to a concrete
session. -/
theorem C6_witness :
    (∃ w, ResultValue.Bool [true, false] = ResultValue.Bool w)
  ∧ (∃ w, ResultValue.U16 [42, 43] = ResultValue.U16 w)
  ∧ (okClient.read_coils 0 2).1 ≠ Except.error ClientError.resultNotBool :=
  ⟨C6_reader_shape_mismatch_unreachable.1 okTransport 5 0 0 2
      (ResultValue.Bool [true, false]) rfl,
   C6_reader_shape_mismatch_unreachable.2.2.1 okTransport 5 0 100 2
      (ResultValue.U16 [42, 43]) rfl,
   C6_reader_shape_mismatch_unreachable.2.2.2.2.2.1 okClient 0 2⟩

/-- A read of holding registers is determined by the `readHoldingRegisters`
primitive alone: the boolean-path primitives are never consulted. -/
lemma read_holding_depends_only_on_word (t t' : Transport) (a n : Nat)
    (h : ∀ j, t.readHoldingRegisters j = t'.readHoldingRegisters j) :
    ∀ c i, handle_timeout_read t c i (Request.ReadHoldingRegisters a n) =
      handle_timeout_read t' c i (Request.ReadHoldingRegisters a n) := by
  intro c
  induction c with
  | zero => intro i; rfl
  | succ r ih =>
    intro i
    simp only [handle_timeout_read, wordFuture, boolFuture, h i, ih (i + 1)]

/-- A read of input registers is determined by the `readInputRegisters`
primitive alone. -/
lemma read_input_depends_only_on_word (t t' : Transport) (a n : Nat)
    (h : ∀ j, t.readInputRegisters j = t'.readInputRegisters j) :
    ∀ c i, handle_timeout_read t c i (Request.ReadInputRegisters a n) =
      handle_timeout_read t' c i (Request.ReadInputRegisters a n) := by
  intro c
  induction c with
  | zero => intro i; rfl
  | succ r ih =>
    intro i
    simp only [handle_timeout_read, wordFuture, boolFuture, h i, ih (i + 1)]

/-- A combined read-write of registers is determined by the
`readWriteMultipleRegisters` primitive alone. -/
lemma read_write_multiple_depends_only_on_word (t t' : Transport)
    (ra rc wa : Nat) (wd : List Nat)
    (h : ∀ j, t.readWriteMultipleRegisters j = t'.readWriteMultipleRegisters j) :
    ∀ c i, handle_timeout_read t c i (Request.ReadWriteMultipleRegisters ra rc wa wd) =
      handle_timeout_read t' c i (Request.ReadWriteMultipleRegisters ra rc wa wd) := by
  intro c
  induction c with
  | zero => intro i; rfl
  | succ r ih =>
    intro i
    simp only [handle_timeout_read, wordFuture, boolFuture, h i, ih (i + 1)]

/-- A read of coils is determined by the `readCoils` primitive alone: the
word-path primitives are never consulted. -/
lemma read_coils_depends_only_on_bool (t t' : Transport) (a n : Nat)
    (h : ∀ j, t.readCoils j = t'.readCoils j) :
    ∀ c i, handle_timeout_read t c i (Request.ReadCoils a n) =
      handle_timeout_read t' c i (Request.ReadCoils a n) := by
  intro c
  induction c with
  | zero => intro i; rfl
  | succ r ih =>
    intro i
    simp only [handle_timeout_read, wordFuture, boolFuture, h i, ih (i + 1)]

/-- A read of discrete inputs is determined by the `readDiscreteInputs`
primitive alone. -/
lemma read_discrete_depends_only_on_bool (t t' : Transport) (a n : Nat)
    (h : ∀ j, t.readDiscreteInputs j = t'.readDiscreteInputs j) :
    ∀ c i, handle_timeout_read t c i (Request.ReadDiscreteInputs a n) =
      handle_timeout_read t' c i (Request.ReadDiscreteInputs a n) := by
  intro c
  induction c with
  | zero => intro i; rfl
  | succ r ih =>
    intro i
    simp only [handle_timeout_read, wordFuture, boolFuture, h i, ih (i + 1)]

/-- A transport oracle whose word-shaped read primitives are those of
`okTransport` while everything else always times out. -/
def wordOkRestTimeout : Transport :=
  { timeoutTransport with
    readHoldingRegisters := okTransport.readHoldingRegisters
    readInputRegisters := okTransport.readInputRegisters
    readWriteMultipleRegisters := okTransport.readWriteMultipleRegisters }

/-- C7: the read engine's two matching paths.  A request matching neither the
word-shaped nor the boolean-shaped path fails at once with the out-of-range
error, consuming no attempt; the three word-shaped kinds are served by the
word path alone (the boolean primitives are never consulted, so the word path
is decisive whenever it matches), and the two boolean-shaped kinds are served
by the boolean path alone. -/
theorem C7_read_dispatch_paths :
    (∀ t c i req, 0 < c → (∀ j, wordFuture t j req = none) →
      (∀ j, boolFuture t j req = none) →
      handle_timeout_read t c i req = (Except.error ClientError.outOfRange, 0))
  ∧ (∀ t t' a n c i, (∀ j, t.readHoldingRegisters j = t'.readHoldingRegisters j) →
      handle_timeout_read t c i (Request.ReadHoldingRegisters a n) =
        handle_timeout_read t' c i (Request.ReadHoldingRegisters a n))
  ∧ (∀ t t' a n c i, (∀ j, t.readInputRegisters j = t'.readInputRegisters j) →
      handle_timeout_read t c i (Request.ReadInputRegisters a n) =
        handle_timeout_read t' c i (Request.ReadInputRegisters a n))
  ∧ (∀ t t' ra rc wa wd c i,
      (∀ j, t.readWriteMultipleRegisters j = t'.readWriteMultipleRegisters j) →
      handle_timeout_read t c i (Request.ReadWriteMultipleRegisters ra rc wa wd) =
        handle_timeout_read t' c i (Request.ReadWriteMultipleRegisters ra rc wa wd))
  ∧ (∀ t t' a n c i, (∀ j, t.readCoils j = t'.readCoils j) →
      handle_timeout_read t c i (Request.ReadCoils a n) =
        handle_timeout_read t' c i (Request.ReadCoils a n))
  ∧ (∀ t t' a n c i, (∀ j, t.readDiscreteInputs j = t'.readDiscreteInputs j) →
      handle_timeout_read t c i (Request.ReadDiscreteInputs a n) =
        handle_timeout_read t' c i (Request.ReadDiscreteInputs a n)) := by
  refine ⟨?_, ?_, ?_, ?_, ?_, ?_⟩
  · intro t c i req hc hw hb
    obtain ⟨c', rfl⟩ : ∃ c', c = c' + 1 := ⟨c - 1, by omega⟩
    simp only [handle_timeout_read, hw i, hb i]
  · intro t t' a n c i h
    exact read_holding_depends_only_on_word t t' a n h c i
  · intro t t' a n c i h
    exact read_input_depends_only_on_word t t' a n h c i
  · intro t t' ra rc wa wd c i h
    exact read_write_multiple_depends_only_on_word t t' ra rc wa wd h c i
  · intro t t' a n c i h
    exact read_coils_depends_only_on_bool t t' a n h c i
  · intro t t' a n c i h
    exact read_discrete_depends_only_on_bool t t' a n h c i

/-- Witness for C7: a write-kind request handed to the read engine fails with
the out-of-range error having consumed no attempt, and a holding-register
read behaves identically over `okTransport` and over the transport that only
shares its word-shaped primitives. -/
theorem C7_witness :
    handle_timeout_read timeoutTransport 5 0 (Request.WriteSingleCoil 1 true) =
      (Except.error ClientError.outOfRange, 0)
  ∧ handle_timeout_read okTransport 5 0 (Request.ReadHoldingRegisters 100 2) =
      handle_timeout_read wordOkRestTimeout 5 0 (Request.ReadHoldingRegisters 100 2) :=
  ⟨C7_read_dispatch_paths.1 timeoutTransport 5 0 (Request.WriteSingleCoil 1 true)
      (by decide) (fun _ => rfl) (fun _ => rfl),
   C7_read_dispatch_paths.2.1 okTransport wordOkRestTimeout 100 2 5 0 (fun _ => rfl)⟩

/-- A client session over the always-succeeding transport whose retry budget
is zero. -/
def zeroRetryClient : Client :=
  { ctx := okTransport, pos := 0, timeout_millis := 500, retry_count := 0 }

/-- C8: with a retry budget of zero, every public read and write method makes
no transport attempt (the session's call counter is unchanged) and fails
immediately with the deadline-elapsed error rather than looping. -/
theorem C8_zero_retry_zero_attempts (cl : Client) (h : cl.retry_count = 0) :
    (∀ a v, cl.write_single_coil a v = (Except.error ClientError.timeoutElapsed, cl))
  ∧ (∀ a v, cl.write_single_register a v = (Except.error ClientError.timeoutElapsed, cl))
  ∧ (∀ a vs, cl.write_multiple_coils a vs = (Except.error ClientError.timeoutElapsed, cl))
  ∧ (∀ a vs, cl.write_multiple_registers a vs = (Except.error ClientError.timeoutElapsed, cl))
  ∧ (∀ a am om, cl.masked_write_register a am om =
      (Except.error ClientError.timeoutElapsed, cl))
  ∧ (∀ a n, cl.read_coils a n = (Except.error ClientError.timeoutElapsed, cl))
  ∧ (∀ a n, cl.read_discrete_inputs a n = (Except.error ClientError.timeoutElapsed, cl))
  ∧ (∀ a n, cl.read_holding_registers a n = (Except.error ClientError.timeoutElapsed, cl))
  ∧ (∀ a n, cl.read_input_registers a n = (Except.error ClientError.timeoutElapsed, cl))
  ∧ (∀ ra rc wa wd, cl.read_write_multiple_registers ra rc wa wd =
      (Except.error ClientError.timeoutElapsed, cl)) := by
  obtain ⟨tctx, pos, tm, rc⟩ := cl
  have h' : rc = 0 := h
  subst h'
  exact ⟨fun _ _ => rfl, fun _ _ => rfl, fun _ _ => rfl, fun _ _ => rfl,
    fun _ _ _ => rfl, fun _ _ => rfl, fun _ _ => rfl, fun _ _ => rfl,
    fun _ _ => rfl, fun _ _ _ _ => rfl⟩

/-- Witness for C8: on a concrete session with retry budget zero, a write and
a read both fail with the deadline-elapsed error, the session unchanged. -/
theorem C8_witness :
    zeroRetryClient.write_single_coil 3 true =
      (Except.error ClientError.timeoutElapsed, zeroRetryClient)
  ∧ zeroRetryClient.read_coils 0 2 =
      (Except.error ClientError.timeoutElapsed, zeroRetryClient) :=
  ⟨(C8_zero_retry_zero_attempts zeroRetryClient rfl).1 3 true,
   (C8_zero_retry_zero_attempts zeroRetryClient rfl).2.2.2.2.2.1 0 2⟩

/-- C9: both constructors produce a session with `timeout_millis = 500` and
`retry_count = 5`, and no public read or write method changes either value:
the session each method returns carries the same two configuration fields
(even though its transport-call counter may have advanced). -/
theorem C9_config_defaults_and_immutability :
    (∀ t, (Client.new_tcp t).timeout_millis = 500 ∧ (Client.new_tcp t).retry_count = 5)
  ∧ (∀ t, (Client.new_rtu t).timeout_millis = 500 ∧ (Client.new_rtu t).retry_count = 5)
  ∧ (∀ (cl : Client) a v, (cl.write_single_coil a v).2.timeout_millis = cl.timeout_millis ∧
      (cl.write_single_coil a v).2.retry_count = cl.retry_count)
  ∧ (∀ (cl : Client) a v, (cl.write_single_register a v).2.timeout_millis = cl.timeout_millis ∧
      (cl.write_single_register a v).2.retry_count = cl.retry_count)
  ∧ (∀ (cl : Client) a vs, (cl.write_multiple_coils a vs).2.timeout_millis = cl.timeout_millis ∧
      (cl.write_multiple_coils a vs).2.retry_count = cl.retry_count)
  ∧ (∀ (cl : Client) a vs, (cl.write_multiple_registers a vs).2.timeout_millis = cl.timeout_millis ∧
      (cl.write_multiple_registers a vs).2.retry_count = cl.retry_count)
  ∧ (∀ (cl : Client) a am om, (cl.masked_write_register a am om).2.timeout_millis = cl.timeout_millis ∧
      (cl.masked_write_register a am om).2.retry_count = cl.retry_count)
  ∧ (∀ (cl : Client) a n, (cl.read_coils a n).2.timeout_millis = cl.timeout_millis ∧
      (cl.read_coils a n).2.retry_count = cl.retry_count)
  ∧ (∀ (cl : Client) a n, (cl.read_discrete_inputs a n).2.timeout_millis = cl.timeout_millis ∧
      (cl.read_discrete_inputs a n).2.retry_count = cl.retry_count)
  ∧ (∀ (cl : Client) a n, (cl.read_holding_registers a n).2.timeout_millis = cl.timeout_millis ∧
      (cl.read_holding_registers a n).2.retry_count = cl.retry_count)
  ∧ (∀ (cl : Client) a n, (cl.read_input_registers a n).2.timeout_millis = cl.timeout_millis ∧
      (cl.read_input_registers a n).2.retry_count = cl.retry_count)
  ∧ (∀ (cl : Client) ra rc wa wd,
      (cl.read_write_multiple_registers ra rc wa wd).2.timeout_millis = cl.timeout_millis ∧
      (cl.read_write_multiple_registers ra rc wa wd).2.retry_count = cl.retry_count) := by
  refine ⟨?_, ?_, ?_, ?_, ?_, ?_, ?_, ?_, ?_, ?_, ?_, ?_⟩ <;> intros <;> exact ⟨rfl, rfl⟩

/-- A concrete device-model stub that always succeeds; `write_registers`
deliberately reports the quantity 999, unrelated to any request slice
length. -/
def stubCallback : Callback where
  read_coils := fun _ _ => Except.ok [true]
  read_discrete_inputs := fun _ _ => Except.ok [false]
  write_coil := fun _ v => Except.ok v
  write_coils := fun _ vs => Except.ok vs.length
  read_holding_registers := fun _ _ => Except.ok [42, 43]
  read_input_registers := fun _ _ => Except.ok [7]
  write_register := fun _ v => Except.ok v
  write_registers := fun _ _ => Except.ok 999
  masked_write_register := fun _ _ _ => Except.ok ()
  read_write_multiple_registers := fun _ _ _ _ => Except.ok [1, 2]

/-- A concrete device-model stub whose every method fails with a
device-model exception. -/
def errCallback : Callback where
  read_coils := fun _ _ => Except.error Exception.IllegalDataValue
  read_discrete_inputs := fun _ _ => Except.error Exception.ServerDeviceFailure
  write_coil := fun _ _ => Except.error Exception.ServerDeviceBusy
  write_coils := fun _ _ => Except.error Exception.IllegalDataValue
  read_holding_registers := fun _ _ => Except.error Exception.MemoryParityError
  read_input_registers := fun _ _ => Except.error Exception.IllegalDataValue
  write_register := fun _ _ => Except.error Exception.ServerDeviceFailure
  write_registers := fun _ _ => Except.error Exception.IllegalDataValue
  masked_write_register := fun _ _ _ => Except.error Exception.ServerDeviceBusy
  read_write_multiple_registers := fun _ _ _ _ => Except.error Exception.IllegalDataValue

/-- A router over the always-succeeding stub, configured for slave 1. -/
def stubService : InternalService := { call_back := stubCallback, slave := 1 }

/-- A router over the always-failing stub, configured for slave 1. -/
def errService : InternalService := { call_back := errCallback, slave := 1 }

/-- C4: a request whose declared device identifier differs from the router's
configured slave address is answered with exception IllegalDataAddress and
invokes no device-model callback (the invocation trace is empty). -/
theorem C4_address_filter (s : InternalService) (req : SlaveRequest)
    (h : req.slave ≠ s.slave) :
    s.call req = (Except.error Exception.IllegalDataAddress, []) := by
  simp [InternalService.call, h]

/-- Witness for C4: the router for slave 1 rejects a read-coils request
addressed to slave 2 without touching the device model. -/
theorem C4_witness :
    stubService.call ⟨2, Request.ReadCoils 0 8⟩ =
      (Except.error Exception.IllegalDataAddress, []) :=
  C4_address_filter stubService ⟨2, Request.ReadCoils 0 8⟩ (by decide)

/-- C5: for every request addressed to the configured slave whose operation
is one of the ten recognized kinds, the router invokes the matching
device-model method exactly once (the invocation trace is exactly the one
matching call, carrying exactly the request's own fields), the result being
the callback's result mapped into the matching response variant; and, per
the second group of conjuncts, a device-model `ExceptionCode` is returned
unchanged. -/
theorem C5_dispatch_once_exact_fields :
    (∀ (s : InternalService) a c, s.call ⟨s.slave, Request.ReadCoils a c⟩ =
      ((s.call_back.read_coils a c).map Response.ReadCoils, [CallbackCall.read_coils a c]))
  ∧ (∀ (s : InternalService) a c, s.call ⟨s.slave, Request.ReadDiscreteInputs a c⟩ =
      ((s.call_back.read_discrete_inputs a c).map Response.ReadDiscreteInputs,
        [CallbackCall.read_discrete_inputs a c]))
  ∧ (∀ (s : InternalService) a v, s.call ⟨s.slave, Request.WriteSingleCoil a v⟩ =
      ((s.call_back.write_coil a v).map (fun _ => Response.WriteSingleCoil a v),
        [CallbackCall.write_coil a v]))
  ∧ (∀ (s : InternalService) a vs, s.call ⟨s.slave, Request.WriteMultipleCoils a vs⟩ =
      ((s.call_back.write_coils a vs).map (fun len => Response.WriteMultipleCoils a len),
        [CallbackCall.write_coils a vs]))
  ∧ (∀ (s : InternalService) a c, s.call ⟨s.slave, Request.ReadHoldingRegisters a c⟩ =
      ((s.call_back.read_holding_registers a c).map Response.ReadHoldingRegisters,
        [CallbackCall.read_holding_registers a c]))
  ∧ (∀ (s : InternalService) a c, s.call ⟨s.slave, Request.ReadInputRegisters a c⟩ =
      ((s.call_back.read_input_registers a c).map Response.ReadInputRegisters,
        [CallbackCall.read_input_registers a c]))
  ∧ (∀ (s : InternalService) a v, s.call ⟨s.slave, Request.WriteSingleRegister a v⟩ =
      ((s.call_back.write_register a v).map (fun _ => Response.WriteSingleRegister a v),
        [CallbackCall.write_register a v]))
  ∧ (∀ (s : InternalService) a vs, s.call ⟨s.slave, Request.WriteMultipleRegisters a vs⟩ =
      ((s.call_back.write_registers a vs).map
          (fun _ => Response.WriteMultipleRegisters a (vs.length % 65536)),
        [CallbackCall.write_registers a vs]))
  ∧ (∀ (s : InternalService) a am om, s.call ⟨s.slave, Request.MaskWriteRegister a am om⟩ =
      ((s.call_back.masked_write_register a am om).map
          (fun _ => Response.MaskWriteRegister a am om),
        [CallbackCall.masked_write_register a am om]))
  ∧ (∀ (s : InternalService) ra rc wa wd,
      s.call ⟨s.slave, Request.ReadWriteMultipleRegisters ra rc wa wd⟩ =
      ((s.call_back.read_write_multiple_registers ra rc wa wd).map
          Response.ReadWriteMultipleRegisters,
        [CallbackCall.read_write_multiple_registers ra rc wa wd]))
  ∧ (∀ (s : InternalService) a c e, s.call_back.read_coils a c = Except.error e →
      (s.call ⟨s.slave, Request.ReadCoils a c⟩).1 = Except.error e)
  ∧ (∀ (s : InternalService) a c e, s.call_back.read_discrete_inputs a c = Except.error e →
      (s.call ⟨s.slave, Request.ReadDiscreteInputs a c⟩).1 = Except.error e)
  ∧ (∀ (s : InternalService) a v e, s.call_back.write_coil a v = Except.error e →
      (s.call ⟨s.slave, Request.WriteSingleCoil a v⟩).1 = Except.error e)
  ∧ (∀ (s : InternalService) a vs e, s.call_back.write_coils a vs = Except.error e →
      (s.call ⟨s.slave, Request.WriteMultipleCoils a vs⟩).1 = Except.error e)
  ∧ (∀ (s : InternalService) a c e,
      s.call_back.read_holding_registers a c = Except.error e →
      (s.call ⟨s.slave, Request.ReadHoldingRegisters a c⟩).1 = Except.error e)
  ∧ (∀ (s : InternalService) a c e, s.call_back.read_input_registers a c = Except.error e →
      (s.call ⟨s.slave, Request.ReadInputRegisters a c⟩).1 = Except.error e)
  ∧ (∀ (s : InternalService) a v e, s.call_back.write_register a v = Except.error e →
      (s.call ⟨s.slave, Request.WriteSingleRegister a v⟩).1 = Except.error e)
  ∧ (∀ (s : InternalService) a vs e, s.call_back.write_registers a vs = Except.error e →
      (s.call ⟨s.slave, Request.WriteMultipleRegisters a vs⟩).1 = Except.error e)
  ∧ (∀ (s : InternalService) a am om e,
      s.call_back.masked_write_register a am om = Except.error e →
      (s.call ⟨s.slave, Request.MaskWriteRegister a am om⟩).1 = Except.error e)
  ∧ (∀ (s : InternalService) ra rc wa wd e,
      s.call_back.read_write_multiple_registers ra rc wa wd = Except.error e →
      (s.call ⟨s.slave, Request.ReadWriteMultipleRegisters ra rc wa wd⟩).1 =
        Except.error e) := by
  refine ⟨?_, ?_, ?_, ?_, ?_, ?_, ?_, ?_, ?_, ?_, ?_, ?_, ?_, ?_, ?_, ?_, ?_, ?_, ?_, ?_⟩ <;>
    intros <;> simp_all [InternalService.call, Except.map]

/-- Witness for C5: over the slave-1 routers, a holding-register read is
dispatched exactly once with its own fields and a device-model exception on
read coils comes back unchanged. -/
theorem C5_witness :
    stubService.call ⟨1, Request.ReadHoldingRegisters 100 2⟩ =
      (Except.ok (Response.ReadHoldingRegisters [42, 43]),
        [CallbackCall.read_holding_registers 100 2])
  ∧ (errService.call ⟨1, Request.ReadCoils 0 8⟩).1 =
      Except.error Exception.IllegalDataValue :=
  ⟨C5_dispatch_once_exact_fields.2.2.2.2.1 stubService 100 2,
   C5_dispatch_once_exact_fields.2.2.2.2.2.2.2.2.2.2.1 errService 0 8
     Exception.IllegalDataValue rfl⟩

/-- C10: on a successful device-model write, the two multi-value write
responses source their count fields differently: the WriteMultipleCoils
response carries the quantity `len` the `write_coils` callback returned,
while the WriteMultipleRegisters response carries the request's own value
slice length truncated to u16, discarding the quantity `q` the
`write_registers` callback returned. -/
theorem C10_multi_write_count_sources (s : InternalService) (a : Nat)
    (coils : List Bool) (regs : List Nat) (len q : Nat)
    (h1 : s.call_back.write_coils a coils = Except.ok len)
    (h2 : s.call_back.write_registers a regs = Except.ok q) :
    (s.call ⟨s.slave, Request.WriteMultipleCoils a coils⟩).1 =
      Except.ok (Response.WriteMultipleCoils a len)
  ∧ (s.call ⟨s.slave, Request.WriteMultipleRegisters a regs⟩).1 =
      Except.ok (Response.WriteMultipleRegisters a (regs.length % 65536)) := by
  constructor <;> simp [InternalService.call, h1, h2, Except.map]

/-- Witness for C10 over the slave-1 stub router, whose `write_registers`
callback reports the quantity 999: the coils response carries the quantity
the callback returned (the slice length 3 here), while the registers
response carries the request slice's length 2, not 999. -/
theorem C10_witness :
    (stubService.call ⟨1, Request.WriteMultipleCoils 3 [true, false, true]⟩).1 =
      Except.ok (Response.WriteMultipleCoils 3 3)
  ∧ (stubService.call ⟨1, Request.WriteMultipleRegisters 3 [4, 5]⟩).1 =
      Except.ok (Response.WriteMultipleRegisters 3 2) :=
  C10_multi_write_count_sources stubService 3 [true, false, true] [4, 5] 3 999 rfl rfl

end AsyncModbus
